import Mathlib

/-!
# Verification of the claude-monitor reactive pipeline

A shallow embedding of the claude-monitor repository's core pipeline, and
proofs of the specification claims about it.

Embedded components (all translated from the Python source):

* `ClaudeState`, `StateDetection`, the classifier/state-machine of
  `src/detection/state_detector.py` (`detect_state`, `_analyze_lines`,
  `_score_state`, `_apply_timeout_scoring`, `_should_change_state`,
  `_change_state`);
* the line-capping portion of `src/parsing/log_parser.py`
  (`LogLine.__init__`, `_process_new_lines`);
* the decision orchestrator of `obsolete/src/decision/decision_engine.py`
  (`process_detection`);
* the recovery engine guards of `obsolete/src/recovery/recovery_engine.py`
  (`execute_recovery`, `_find_best_strategy`, `_select_best_action`,
  `_is_in_cooldown`).

Modelling conventions:

* Python `float` times and scores are modelled as `ℚ` (the claims are about
  comparisons and exact constants, not rounding).
* Wall-clock reads (`time.time()`, `datetime.now()`) inside one call are
  modelled as a single explicit `now : ℚ` parameter; all calls within one
  Python function happen at essentially the same instant.
* Python truthiness of optional timestamps (`if daemon._last_idle_clear_at:`)
  is modelled exactly: `none` and `some 0` are falsy.
* Compiled regexes are modelled as executable Lean matchers over lowercased
  character lists.  Each matcher's doc comment states the original regex; the
  matchers implement the regex semantics for the texts manipulated in this
  development (literal alternations are implemented as substring counting,
  anchored patterns as per-line checks).
* Logging, statistics bookkeeping, locks and thread spawning are not
  modelled; no claim mentions them.
-/

namespace ClaudeMonitor

/-- The `ClaudeState` enumeration from `state_detector.py` (closed set of
candidate execution states). -/
inductive ClaudeState where
  | UNKNOWN
  | IDLE
  | INPUT_WAITING
  | CONTEXT_PRESSURE
  | ERROR
  | ACTIVE
  | COMPLETED
deriving DecidableEq, Repr

/-! ## String matching primitives

Executable building blocks used to embed the compiled regular expressions of
`state_detector.py` and `log_parser.py`. -/

/-- Lowercase a string into its character list (models `re.IGNORECASE`
matching and Python's `str.lower()`). -/
def lc (s : String) : List Char := s.data.map Char.toLower

/-- Fuel-driven scanner for `count_occs` (structural recursion on the fuel,
which starts at the text length, so the kernel can evaluate it). -/
def count_occs_aux (pat : List Char) : Nat → List Char → Nat
  | 0, _ => 0
  | _ + 1, [] => 0
  | fuel + 1, c :: rest =>
    if pat ≠ [] ∧ pat.isPrefixOf (c :: rest) then
      1 + count_occs_aux pat fuel ((c :: rest).drop pat.length)
    else
      count_occs_aux pat fuel rest

/-- Count the non-overlapping, left-to-right occurrences of `pat` in `text`
(the semantics of `re.findall` for a literal pattern). -/
def count_occs (text pat : List Char) : Nat :=
  count_occs_aux pat text.length text

/-- Count occurrences of the literal `pat` (given lowercased) in `s`,
case-insensitively. -/
def count_tok (s : String) (pat : String) : Nat :=
  count_occs (lc s) pat.data

/-- Whether the literal `pat` occurs in `s`, case-insensitively. -/
def has_tok (s : String) (pat : String) : Bool :=
  count_tok s pat ≠ 0

/-- Sum of occurrence counts over several literal alternatives (models a
regex alternation of literals). -/
def count_alts (s : String) (pats : List String) : Nat :=
  (pats.map (count_tok s ·)).sum

/-- Split a character list at newline characters (`str.split('\n')`
semantics: always at least one part, empty parts preserved). -/
def split_nl : List Char → List (List Char)
  | [] => [[]]
  | c :: rest =>
    if c = '\n' then [] :: split_nl rest
    else
      match split_nl rest with
      | [] => [[c]]
      | l :: ls => (c :: l) :: ls

/-- Split a text into its lines (Python `str.split('\n')` / the line
structure that `re.MULTILINE` anchors see). -/
def text_lines (s : String) : List String :=
  (split_nl s.data).map (fun cs => ⟨cs⟩)

/-- Characters the embedding treats as `\s` (sufficient for terminal text:
space, tab, carriage return). -/
def is_space (c : Char) : Bool :=
  c = ' ' ∨ c = '\t' ∨ c = '\r'

/-- A word character in the sense of regex `\w`: alphanumeric or
underscore. -/
def is_word_char (c : Char) : Bool :=
  c.isAlphanum ∨ c = '_'

/-- Drop trailing `\s` characters. -/
def drop_trailing_space (cs : List Char) : List Char :=
  (cs.reverse.dropWhile is_space).reverse

theorem dropWhile_len_le (p : Char → Bool) (l : List Char) :
    (l.dropWhile p).length ≤ l.length := by
  induction l with
  | nil => simp [List.dropWhile]
  | cons c cs ih =>
    by_cases h : p c <;> simp [List.dropWhile, h] <;> omega

/-- Does `cs` contain `pat` as a (not necessarily contiguous) subsequence?
Models `a.*b.*c`-shaped patterns within a single line, since regex `.`
matches anything except a newline. -/
def has_subseq (cs pat : List Char) : Bool :=
  match cs, pat with
  | _, [] => true
  | [], _ :: _ => false
  | c :: cs', t :: ts => if c = t then has_subseq cs' ts else has_subseq cs' (t :: ts)

/-- Fuel-driven tokenizer behind `words_of`. -/
def words_of_aux : Nat → List Char → List (List Char)
  | 0, _ => []
  | _ + 1, [] => []
  | fuel + 1, c :: rest =>
    if is_word_char c then
      ((c :: rest).takeWhile is_word_char)
        :: words_of_aux fuel ((c :: rest).dropWhile is_word_char)
    else
      words_of_aux fuel rest

/-- The maximal word-character tokens of a text (used to model `\b`-anchored
keyword matching). -/
def words_of (cs : List Char) : List (List Char) :=
  words_of_aux cs.length cs

/-- Count whole-word occurrences of the lowercase word `w` in `s`
(case-insensitive `\bw\b`). -/
def word_count (s : String) (w : String) : Nat :=
  ((words_of (lc s)).filter (· = w.data)).length

/-- The numeric value of a run of decimal digits (Python `int(...)` on a
`(\d+)` regex group). -/
def digits_to_nat (cs : List Char) : Nat :=
  cs.foldl (fun n c => n * 10 + (c.toNat - '0'.toNat)) 0

/-- Fuel-driven scanner behind `percents_in`. -/
def percents_in_aux : Nat → List Char → List Nat
  | 0, _ => []
  | _ + 1, [] => []
  | fuel + 1, c :: rest =>
    if c.isDigit then
      let run := (c :: rest).takeWhile Char.isDigit
      let after := (c :: rest).dropWhile Char.isDigit
      if after.head? = some '%' then
        digits_to_nat run :: percents_in_aux fuel after.tail
      else
        percents_in_aux fuel after
    else
      percents_in_aux fuel rest

/-- The values of all `(\d+)%` matches in a text: maximal digit runs that are
immediately followed by `%` (the percentage extraction of
`_score_context_pressure`). -/
def percents_in (cs : List Char) : List Nat :=
  percents_in_aux cs.length cs

/-- Count of suffix positions of the lowercased text at which the matcher
`m` fires (position-based match counting for the structured patterns). -/
def count_pos (s : String) (m : List Char → Bool) : Nat :=
  ((lc s).tails.filter m).length

/-- A line consisting of a bare command prompt: regex `^[>\$#]\s*$`
(`re.MULTILINE`). -/
def prompt_only_line (l : String) : Bool :=
  match l.data with
  | c :: rest => (c = '>' ∨ c = '$' ∨ c = '#') ∧ rest.all is_space
  | [] => false

/-- Regex `claude\s*>?\s*$` (`re.IGNORECASE`, no MULTILINE): the text ends
with "claude", optionally followed by spaces, one `>`, and spaces. -/
def claude_prompt_match (s : String) : Bool :=
  let t := drop_trailing_space (lc s)
  let t2 := match t.getLast? with
            | some '>' => drop_trailing_space t.dropLast
            | _ => t
  "claude".data.isSuffixOf t2

/-- Regex `ready\s*[>\$#]?\s*$` (`re.IGNORECASE`): the text ends with
"ready", optionally followed by spaces, one prompt character, spaces. -/
def ready_prompt_match (s : String) : Bool :=
  let t := drop_trailing_space (lc s)
  let t2 := match t.getLast? with
            | some '>' => drop_trailing_space t.dropLast
            | some '$' => drop_trailing_space t.dropLast
            | some '#' => drop_trailing_space t.dropLast
            | _ => t
  "ready".data.isSuffixOf t2

/-- Regex `\[.*%.*\]`: some line contains `[`, `%`, `]` in order (regex `.`
does not cross newlines). -/
def bracket_pct_match (s : String) : Bool :=
  (text_lines s).any (fun l => has_subseq l.data ['[', '%', ']'])

/-- At the current position: `\s*(?:8[5-9]|9[0-9]|100)%` — optional spaces,
then a percentage between 85 and 100, then `%`. -/
def high_pct_after (cs : List Char) : Bool :=
  let cs' := cs.dropWhile is_space
  let run := cs'.takeWhile Char.isDigit
  let after := cs'.dropWhile Char.isDigit
  after.head? = some '%' ∧ ((run.length = 2 ∧ 85 ≤ String.toNat! ⟨run⟩) ∨ run = ['1', '0', '0'])

/-- Position matcher for regex `(?:usage|used):\s*(?:8[5-9]|9[0-9]|100)%`
(`re.IGNORECASE`). -/
def usage_pct_match (t : List Char) : Bool :=
  ("usage:".data.isPrefixOf t ∧ high_pct_after (t.drop 6)) ∨
  ("used:".data.isPrefixOf t ∧ high_pct_after (t.drop 5))

/-- Position matcher for regex `(?:9[5-9]|100)%`. -/
def pct95_match (t : List Char) : Bool :=
  let run := t.takeWhile Char.isDigit
  let after := t.dropWhile Char.isDigit
  after.head? = some '%' ∧ ((run.length = 2 ∧ 95 ≤ String.toNat! ⟨run⟩) ∨ run = ['1', '0', '0'])

/-- Position matcher for regex `\[(?:\d+%|\*+|\.+)\]` (progress
indicators). -/
def progress_match (t : List Char) : Bool :=
  match t with
  | '[' :: rest =>
    (let run := rest.takeWhile Char.isDigit
     run ≠ [] ∧ (rest.drop run.length).head? = some '%' ∧
       (rest.drop (run.length + 1)).head? = some ']') ∨
    (let stars := rest.takeWhile (· = '*')
     stars ≠ [] ∧ (rest.drop stars.length).head? = some ']') ∨
    (let dots := rest.takeWhile (· = '.')
     dots ≠ [] ∧ (rest.drop dots.length).head? = some ']')
  | _ => false

/-- A line matching `\?[^\w]*$` (`re.MULTILINE`): scanning from the end of
the line, a `?` occurs before any word character. -/
def question_line (l : String) : Bool :=
  match l.data.reverse.dropWhile (fun c => !is_word_char c && c ≠ '?') with
  | '?' :: _ => true
  | _ => false

/-- Regex `\?[^\w]*$` searched over a multi-line text. -/
def question_found (s : String) : Bool :=
  (text_lines s).any question_line

/-! ## The compiled pattern registry (`StateDetector._compile_patterns`)

Each `Pat` carries the original regex source (used verbatim in evidence
strings) and an executable match-count function embedding that regex. -/

/-- A compiled pattern: regex source text plus its `findall`-count
semantics. -/
structure Pat where
  pattern : String
  count : String → Nat

/-- The `re.search` semantics: at least one match (`Pat.count` is positive). -/
def Pat.found (p : Pat) (s : String) : Bool :=
  p.count s ≠ 0

/-- A pattern that is an alternation of case-insensitive literals. -/
def tokPat (rx : String) (alts : List String) : Pat :=
  ⟨rx, fun s => count_alts s alts⟩

/-- A pattern that matches whole words (`\b`-anchored keywords). -/
def wordPat (rx : String) (ws : List String) : Pat :=
  ⟨rx, fun s => (ws.map (word_count s ·)).sum⟩

/-- A pattern given by a position matcher over the lowercased text. -/
def posPat (rx : String) (m : List Char → Bool) : Pat :=
  ⟨rx, fun s => count_pos s m⟩

/-- A pattern that matches whole lines (for `re.MULTILINE` anchors). -/
def linePat (rx : String) (m : String → Bool) : Pat :=
  ⟨rx, fun s => ((text_lines s).filter m).length⟩

/-- A pattern matching at most once, anchored at the end of the text. -/
def endPat (rx : String) (m : String → Bool) : Pat :=
  ⟨rx, fun s => if m s then 1 else 0⟩

/-- Per-state pattern configuration: main patterns, weight, and the optional
auxiliary pattern lists read by `_score_state` and the special scorers
(`.get(...)` on a missing key yields the empty list). -/
structure StatePatternCfg where
  patterns : List Pat
  weight : ℚ
  negative_patterns : List Pat := []
  timeout_indicators : List Pat := []
  severity_indicators : List Pat := []
  severity_patterns : List Pat := []

/-- The `_compile_patterns()['idle']`. -/
def idle_patterns : StatePatternCfg where
  patterns :=
    [ linePat "^[>\\$#]\\s*$" prompt_only_line
    , endPat "claude\\s*>?\\s*$" claude_prompt_match
    , endPat "ready\\s*[>\\$#]?\\s*$" ready_prompt_match
    , tokPat "waiting\\s+for\\s+(?:command|input)"
        ["waiting for command", "waiting for input"] ]
  weight := 1
  negative_patterns :=
    [ tokPat "error|exception|failed" ["error", "exception", "failed"]
    , endPat "\\[.*%.*\\]" bracket_pct_match
    , tokPat "processing|loading|running" ["processing", "loading", "running"] ]

/-- The `_compile_patterns()['input_waiting']`. -/
def input_waiting_patterns : StatePatternCfg where
  patterns :=
    [ tokPat "\\[y/n\\]|\\[Y/N\\]|\\[yes/no\\]" ["[y/n]", "[yes/no]"]
    , tokPat "press\\s+(?:enter|any\\s+key|space)"
        ["press enter", "press any key", "press space"]
    , tokPat "continue\\s*\\?" ["continue?"]
    , tokPat "do\\s+you\\s+want\\s+to" ["do you want to"]
    , tokPat "would\\s+you\\s+like\\s+to" ["would you like to"]
    , tokPat "choose\\s+(?:an?\\s+)?option"
        ["choose option", "choose an option", "choose a option"]
    , tokPat "enter\\s+(?:your\\s+)?(?:choice|selection)"
        ["enter choice", "enter selection", "enter your choice", "enter your selection"] ]
  weight := 6/5
  timeout_indicators :=
    [ tokPat "waiting\\s+for\\s+(?:input|response)"
        ["waiting for input", "waiting for response"]
    , tokPat "please\\s+(?:enter|select|choose)"
        ["please enter", "please select", "please choose"] ]

/-- The `_compile_patterns()['context_pressure']`. -/
def context_pressure_patterns : StatePatternCfg where
  patterns :=
    [ tokPat "(?:context|memory|token)\\s+(?:limit|full|exceeded)"
        [ "context limit", "context full", "context exceeded"
        , "memory limit", "memory full", "memory exceeded"
        , "token limit", "token full", "token exceeded" ]
    , posPat "(?:usage|used):\\s*(?:8[5-9]|9[0-9]|100)%" usage_pct_match
    , tokPat "approaching\\s+(?:limit|maximum)" ["approaching limit", "approaching maximum"]
    , tokPat "consider\\s+(?:compacting|reducing)" ["consider compacting", "consider reducing"]
    , tokPat "/compact\\s+(?:recommended|suggested)"
        ["/compact recommended", "/compact suggested"]
    , tokPat "running\\s+(?:low\\s+on\\s+)?(?:context|memory)"
        ["running low on context", "running low on memory", "running context", "running memory"] ]
  weight := 3/2
  severity_indicators :=
    [ tokPat "(?:critical|urgent|immediate)" ["critical", "urgent", "immediate"]
    , posPat "(?:9[5-9]|100)%" pct95_match ]

/-- The `_compile_patterns()['error']`. -/
def error_patterns : StatePatternCfg where
  patterns :=
    [ wordPat "error\\s*:|\\berror\\b" ["error"]
    , wordPat "exception\\s*:|\\bexception\\b" ["exception"]
    , tokPat "failed\\s+to|failure\\s*:" ["failed to", "failure:"]
    , tokPat "(?:connection|network)\\s+(?:error|failed)"
        ["connection error", "connection failed", "network error", "network failed"]
    , tokPat "timeout|timed\\s+out" ["timeout", "timed out"]
    , tokPat "unable\\s+to|cannot\\s+|can\x27t\\s+" ["unable to", "cannot ", "can\x27t "]
    , tokPat "invalid|incorrect|malformed" ["invalid", "incorrect", "malformed"] ]
  weight := 13/10
  severity_patterns :=
    [ tokPat "(?:fatal|critical|severe)" ["fatal", "critical", "severe"]
    , tokPat "traceback|stack\\s+trace" ["traceback", "stack trace"] ]

/-- The `_compile_patterns()['active']`.  The `progress_indicators` list of the
source is never read by any scoring code and is omitted. -/
def active_patterns : StatePatternCfg where
  patterns :=
    [ tokPat "(?:processing|executing|running)" ["processing", "executing", "running"]
    , tokPat "(?:analyzing|parsing|loading)" ["analyzing", "parsing", "loading"]
    , tokPat "(?:generating|creating|building)" ["generating", "creating", "building"]
    , posPat "\\[(?:\\d+%|\\*+|\\.+)\\]" progress_match
    , tokPat "please\\s+wait|working" ["please wait", "working"] ]
  weight := 4/5

/-- The `_compile_patterns()['completed']`.  The `confirmation_patterns` list of
the source is never read by any scoring code and is omitted. -/
def completed_patterns : StatePatternCfg where
  patterns :=
    [ tokPat "(?:completed|finished|done)" ["completed", "finished", "done"]
    , tokPat "(?:success|successful)" ["success"]
    , tokPat "task\\s+(?:complete|finished)" ["task complete", "task finished"]
    , tokPat "all\\s+(?:tasks|work)\\s+(?:complete|done)"
        [ "all tasks complete", "all tasks done", "all work complete", "all work done" ]
    , tokPat "no\\s+(?:pending|remaining)\\s+tasks"
        ["no pending tasks", "no remaining tasks"] ]
  weight := 9/10

/-- The full pattern registry, in the dict insertion order that
`_analyze_lines` iterates over and that `max(..., key=...)` sees. -/
def compiled_patterns : List (String × StatePatternCfg) :=
  [ ("idle", idle_patterns)
  , ("input_waiting", input_waiting_patterns)
  , ("context_pressure", context_pressure_patterns)
  , ("error", error_patterns)
  , ("active", active_patterns)
  , ("completed", completed_patterns) ]

/-! ## Log data model (`log_parser.py`) -/

/-- A parsed log line.  `content` is stored as `LogLine.__init__` leaves it
(trailing newline characters stripped); the `metadata` tag dictionary is not
modelled (no claim reads it). -/
structure LogLine where
  content : String
  timestamp : ℚ
  line_number : Nat := 0
  file_path : String := ""
deriving DecidableEq, Repr

/-- The bounded `LogContext` ring buffer. -/
structure LogContext where
  max_lines : Nat := 1000
  lines : List LogLine := []
deriving DecidableEq, Repr

/-- The `LogContext.add_line`: append, evicting the oldest line when the
`deque(maxlen=...)` bound is exceeded. -/
def LogContext.add_line (ctx : LogContext) (l : LogLine) : LogContext :=
  let ls := ctx.lines ++ [l]
  { ctx with lines := if ctx.max_lines < ls.length then ls.tail else ls }

/-- The `LogContext.get_recent_lines(count)`: the Python slice `list[-count:]`
(the whole list when `count = 0`, mirroring `[-0:]`). -/
def LogContext.get_recent_lines (ctx : LogContext) (count : Nat) : List LogLine :=
  if count = 0 then ctx.lines else ctx.lines.drop (ctx.lines.length - count)

/-! ## StateDetection and detector state (`state_detector.py`) -/

/-- A state detection result.  The `metadata` dictionary (`all_scores`,
`analysis_method`, `lines_analyzed`) is not modelled; the claims compare
state, confidence and evidence. -/
structure StateDetection where
  state : ClaudeState
  confidence : ℚ
  evidence : List String
  timestamp : ℚ
  triggering_lines : List LogLine
deriving DecidableEq, Repr

/-- The `StateDetection.__post_init__`: construction fails (raises `ValueError`)
unless the confidence lies in `[0, 1]`. -/
def mk_state_detection (state : ClaudeState) (confidence : ℚ) (evidence : List String)
    (timestamp : ℚ) (triggering_lines : List LogLine) : Except String StateDetection :=
  if 0 ≤ confidence ∧ confidence ≤ 1 then
    .ok ⟨state, confidence, evidence, timestamp, triggering_lines⟩
  else
    .error "Confidence must be between 0.0 and 1.0"

/-- Detector configuration (`_get_default_config`), restricted to the keys
the modelled code paths read. -/
structure DetectorConfig where
  min_confidence : ℚ := 3/5
  idle_timeout : ℚ := 30
  input_timeout : ℚ := 5
  debounce_time : ℚ := 2
  state_history_limit : Nat := 100
deriving DecidableEq, Repr

/-- A recorded state transition (`StateTransition`). -/
structure StateTransition where
  from_state : ClaudeState
  to_state : ClaudeState
  detection : StateDetection
  duration : ℚ
  timestamp : ℚ
deriving DecidableEq, Repr

/-- The mutable state of a `StateDetector` (statistics bookkeeping is not
modelled). -/
structure DetectorState where
  current_state : ClaudeState := .UNKNOWN
  last_detection : Option StateDetection := none
  last_state_change : ℚ := 0
  state_history : List StateTransition := []
deriving DecidableEq, Repr

/-- A value for each of the six scored state categories, in the dict
insertion order of `_compile_patterns`. -/
structure PerState (α : Type _) where
  idle : α
  input_waiting : α
  context_pressure : α
  error : α
  active : α
  completed : α
deriving DecidableEq, Repr

/-- The categories as the ordered association list that Python dict
iteration produces. -/
def PerState.toList (p : PerState α) : List (String × α) :=
  [ ("idle", p.idle), ("input_waiting", p.input_waiting)
  , ("context_pressure", p.context_pressure), ("error", p.error)
  , ("active", p.active), ("completed", p.completed) ]

/-- Dictionary lookup by category name (callers only use the six names of
`PerState.toList`). -/
def PerState.get (p : PerState α) (name : String) : α :=
  if name = "idle" then p.idle
  else if name = "input_waiting" then p.input_waiting
  else if name = "context_pressure" then p.context_pressure
  else if name = "error" then p.error
  else if name = "active" then p.active
  else p.completed

/-- Map a function over all six components. -/
def PerState.map (f : α → β) (p : PerState α) : PerState β :=
  ⟨f p.idle, f p.input_waiting, f p.context_pressure, f p.error, f p.active, f p.completed⟩

/-! ## Scoring (`_score_state` and the special scorers) -/

/-- The keyword count of `_score_error_state`: regex
`\b(?:error|exception|failed)\b` (`re.IGNORECASE`). -/
def error_keyword_count (s : String) : Nat :=
  word_count s "error" + word_count s "exception" + word_count s "failed"

/-- The `_score_context_pressure(text, config, evidence)`: returns the score
delta and the evidence entries it appends. -/
def score_context_pressure (text : String) (pcfg : StatePatternCfg) : ℚ × List String :=
  let pcts := percents_in text.data
  let base : ℚ × List String :=
    match pcts with
    | [] => (0, [])
    | _ =>
      let m := pcts.foldl max 0
      if 90 ≤ m then (3/5, ["High usage: " ++ toString m ++ "%"])
      else if 80 ≤ m then (2/5, ["Medium usage: " ++ toString m ++ "%"])
      else (0, [])
  let sev := pcfg.severity_indicators.filter (·.found text)
  (base.1 + (sev.length : ℚ) * (3/10),
   base.2 ++ sev.map (fun p => "Severity indicator: " ++ p.pattern))

/-- The `_score_input_waiting(text, config, evidence)`. -/
def score_input_waiting (text : String) (pcfg : StatePatternCfg) : ℚ × List String :=
  let ti := pcfg.timeout_indicators.filter (·.found text)
  let s : ℚ := (ti.length : ℚ) * (1/5)
  let e := ti.map (fun p => "Timeout indicator: " ++ p.pattern)
  if question_found text then (s + 3/10, e ++ ["Recent question mark"]) else (s, e)

/-- The `_score_error_state(text, config, evidence)`. -/
def score_error_state (text : String) (pcfg : StatePatternCfg) : ℚ × List String :=
  let sp := pcfg.severity_patterns.filter (·.found text)
  let s : ℚ := (sp.length : ℚ) * (2/5)
  let e := sp.map (fun p => "Severe error: " ++ p.pattern)
  let cnt := error_keyword_count text
  if 1 < cnt then
    (s + min ((cnt : ℚ) * (1/10)) (3/10), e ++ ["Multiple error indicators: " ++ toString cnt])
  else (s, e)

/-- The `_score_idle_state(lines, evidence)`: idle score from the wall-clock gap
since the last line. -/
def score_idle_state (lines : List LogLine) (now : ℚ) (idle_timeout : ℚ) : ℚ × List String :=
  match lines.getLast? with
  | none => (0, [])
  | some last =>
    let t := now - last.timestamp
    if idle_timeout ≤ t then
      (min (t / idle_timeout) 1 * (1/2), ["Idle for " ++ toString t ++ "s"])
    else (0, [])

/-- The `_score_state(state_name, combined_text, recent_text, lines,
pattern_config)`: score, evidence and triggering lines for one category. -/
def score_state (state_name : String) (combined recent : String) (lines : List LogLine)
    (pcfg : StatePatternCfg) (now : ℚ) (cfg : DetectorConfig) :
    ℚ × List String × List LogLine :=
  let step := fun (acc : ℚ × List String × List LogLine) (p : Pat) =>
    let m := p.count recent
    if m ≠ 0 then
      (acc.1 + (m : ℚ) * (3/10) * pcfg.weight,
       acc.2.1 ++ ["Pattern match: " ++ p.pattern],
       acc.2.2 ++ (lines.drop (lines.length - 10)).filter (fun l => p.found l.content))
    else acc
  let main := pcfg.patterns.foldl step (0, [], [])
  let negs := pcfg.negative_patterns.filter (·.found recent)
  let s2 : ℚ := main.1 - (negs.length : ℚ) * (1/5) * pcfg.weight
  let e2 := main.2.1 ++ negs.map (fun p => "Negative pattern: " ++ p.pattern)
  let special : ℚ × List String :=
    if state_name = "context_pressure" then score_context_pressure combined pcfg
    else if state_name = "input_waiting" then score_input_waiting recent pcfg
    else if state_name = "error" then score_error_state combined pcfg
    else if state_name = "idle" then score_idle_state lines now cfg.idle_timeout
    else (0, [])
  (max (s2 + special.1) 0, e2 ++ special.2, main.2.2)

/-- The per-category `(score, evidence, triggering lines)` triples computed
by the scoring loop of `_analyze_lines`. -/
def raw_scores (lines : List LogLine) (now : ℚ) (cfg : DetectorConfig) :
    PerState (ℚ × List String × List LogLine) :=
  let combined := String.intercalate "\n" (lines.map (·.content))
  let recent := String.intercalate "\n" ((lines.drop (lines.length - 5)).map (·.content))
  { idle := score_state "idle" combined recent lines idle_patterns now cfg
  , input_waiting := score_state "input_waiting" combined recent lines input_waiting_patterns now cfg
  , context_pressure := score_state "context_pressure" combined recent lines context_pressure_patterns now cfg
  , error := score_state "error" combined recent lines error_patterns now cfg
  , active := score_state "active" combined recent lines active_patterns now cfg
  , completed := score_state "completed" combined recent lines completed_patterns now cfg }

/-- The `_apply_timeout_scoring(state_scores, lines)`: wall-clock adjustments to
the category scores. -/
def apply_timeout_scoring (scores : PerState ℚ) (lines : List LogLine) (now : ℚ)
    (cfg : DetectorConfig) (current : ClaudeState) : PerState ℚ :=
  match lines.getLast? with
  | none => scores
  | some last =>
    let t := now - last.timestamp
    let s1 := if cfg.idle_timeout < t then { scores with idle := scores.idle + 3/10 } else scores
    let s2 := if 5 < t then { s1 with active := s1.active * (1/2) } else s1
    if current = .INPUT_WAITING ∧ cfg.input_timeout < t then
      { s2 with input_waiting := s2.input_waiting * (7/10) }
    else s2

/-- The `max(state_scores, key=state_scores.get)`: the first category (in dict
order) attaining the maximal score, with that score. -/
def best_of (scores : PerState ℚ) : String × ℚ :=
  match scores.toList with
  | [] => ("idle", 0)
  | hd :: tl => tl.foldl (fun best x => if best.2 < x.2 then x else best) hd

/-- The `state_mapping` dict of `_analyze_lines` (`.get` default
`UNKNOWN`). -/
def state_mapping (name : String) : ClaudeState :=
  if name = "idle" then .IDLE
  else if name = "input_waiting" then .INPUT_WAITING
  else if name = "context_pressure" then .CONTEXT_PRESSURE
  else if name = "error" then .ERROR
  else if name = "active" then .ACTIVE
  else if name = "completed" then .COMPLETED
  else .UNKNOWN

/-- The final category scores of a classification: pattern scores after the
timeout adjustment pass. -/
def final_scores (cfg : DetectorConfig) (current : ClaudeState) (lines : List LogLine)
    (now : ℚ) : PerState ℚ :=
  apply_timeout_scoring ((raw_scores lines now cfg).map (·.1)) lines now cfg current

/-- The `_analyze_lines(lines)`: classify a non-empty window of lines, with the
low-confidence retention fallback. -/
def analyze_lines (cfg : DetectorConfig) (current : ClaudeState) (lines : List LogLine)
    (now : ℚ) : StateDetection :=
  let parts := raw_scores lines now cfg
  let scores := apply_timeout_scoring (parts.map (·.1)) lines now cfg current
  let best := best_of scores
  let best_state := state_mapping best.1
  let chosen : ClaudeState × ℚ :=
    if best.2 < cfg.min_confidence then
      if current ≠ .UNKNOWN then (current, max best.2 (3/10))
      else (.UNKNOWN, best.2)
    else (best_state, best.2)
  { state := chosen.1
  , confidence := min chosen.2 1
  , evidence := (parts.map (·.2.1)).get best.1
  , timestamp := now
  , triggering_lines := (parts.map (·.2.2)).get best.1 }

/-! ## State machine (`_should_change_state`, `_change_state`,
`detect_state`) -/

/-- The `priority_map` of `_should_change_state`. -/
def priority_map : ClaudeState → Nat
  | .CONTEXT_PRESSURE => 4
  | .INPUT_WAITING => 3
  | .ERROR => 2
  | .IDLE => 1
  | .ACTIVE => 1
  | .COMPLETED => 1
  | .UNKNOWN => 0

/-- The `_should_change_state(detection)`: the hysteresis acceptance rule. -/
def should_change_state (cfg : DetectorConfig) (current : ClaudeState)
    (last_state_change : ℚ) (det : StateDetection) (now : ℚ) : Bool :=
  if current = .UNKNOWN then cfg.min_confidence ≤ det.confidence
  else if det.confidence < cfg.min_confidence then false
  else if det.state = current then false
  else if now - last_state_change < cfg.debounce_time then false
  else
    let cp := priority_map current
    let np := priority_map det.state
    if cp < np then (1/2 : ℚ) ≤ det.confidence
    else if np = cp then (7/10 : ℚ) ≤ det.confidence
    else (4/5 : ℚ) ≤ det.confidence

/-- The `_change_state(detection)`: record the transition and update the
externally visible state. -/
def change_state (cfg : DetectorConfig) (d : DetectorState) (det : StateDetection)
    (now : ℚ) : DetectorState :=
  let duration := now - d.last_state_change
  let tr : StateTransition :=
    { from_state := d.current_state, to_state := det.state, detection := det
    , duration := duration, timestamp := det.timestamp }
  let h := d.state_history ++ [tr]
  let h2 := if cfg.state_history_limit < h.length then h.tail else h
  { d with current_state := det.state, last_state_change := now, state_history := h2 }

/-- The detection value returned by `detect_state`: it depends on the
detector state only through the current state. -/
def compute_detection (cfg : DetectorConfig) (current : ClaudeState) (ctx : LogContext)
    (now : ℚ) : StateDetection :=
  let recent := ctx.get_recent_lines 20
  if recent.isEmpty then
    { state := .UNKNOWN, confidence := 0, evidence := ["No log lines available"]
    , timestamp := now, triggering_lines := [] }
  else analyze_lines cfg current recent now

/-- The `detect_state(context)`: classify, possibly accept a state change, and
record the detection. -/
def detect_state (cfg : DetectorConfig) (d : DetectorState) (ctx : LogContext)
    (now : ℚ) : StateDetection × DetectorState :=
  let det := compute_detection cfg d.current_state ctx now
  let d1 :=
    if should_change_state cfg d.current_state d.last_state_change det now then
      change_state cfg d det now
    else d
  (det, { d1 with last_detection := some det })

/-! ## Log tailer line processing (`LogParser._process_new_lines`) -/

/-- The `content.rstrip('\n\r')` from `LogLine.__init__`. -/
def rstrip_newlines (s : String) : String :=
  ⟨(s.data.reverse.dropWhile (fun c => c == '\n' || c == '\r')).reverse⟩

/-- Parser configuration, restricted to the key the modelled path reads. -/
structure ParserConfig where
  max_line_length : Nat := 32768
deriving DecidableEq, Repr

/-- The truncation marker appended by `_process_new_lines`. -/
def truncation_marker : String := "... [truncated]"

/-- The Python slice `line[:n]`: the first `n` characters. -/
def str_take (s : String) (n : Nat) : String := ⟨s.data.take n⟩

/-- The line-length cap of `_process_new_lines`: lines longer than
`max_line_length` are cut and marked. -/
def cap_line (cfg : ParserConfig) (line : String) : String :=
  if cfg.max_line_length < line.length then
    str_take line cfg.max_line_length ++ truncation_marker
  else line

/-- The `_create_log_line(content)` restricted to content/identity fields (the
tag-pattern metadata extraction and timestamp re-parsing are not read by any
claim). -/
def create_log_line (line_number : Nat) (file_path : String) (now : ℚ)
    (content : String) : LogLine :=
  { content := rstrip_newlines content, timestamp := now
  , line_number := line_number, file_path := file_path }

/-- Processing of one raw line split out of the buffer: cap, then construct
the stored `LogLine`. -/
def store_line (cfg : ParserConfig) (line_number : Nat) (file_path : String) (now : ℚ)
    (raw : String) : LogLine :=
  create_log_line line_number file_path now (cap_line cfg raw)

/-- The `while '\n' in buffer: line, buffer = buffer.split('\n', 1)` loop:
the completed lines and the leftover partial line. -/
def split_complete_lines (buffer : String) : List String × String :=
  let parts := text_lines buffer
  match parts.getLast? with
  | some last => (parts.dropLast, last)
  | none => ([], "")

/-- The per-chunk body of `_process_new_lines`: every completed line is
capped, turned into a `LogLine`, added to the context and emitted to the
line observers.  Returns the updated context, the emitted lines, and the
remaining partial buffer. -/
def process_buffer (cfg : ParserConfig) (ctx : LogContext) (start_line : Nat)
    (file_path : String) (now : ℚ) (buffer : String) :
    LogContext × List LogLine × String :=
  let split := split_complete_lines buffer
  let stored := split.1.enum.map
    (fun p => store_line cfg (start_line + 1 + p.1) file_path now p.2)
  (stored.foldl LogContext.add_line ctx, stored, split.2)

/-! ## Decision orchestrator (`decision_engine.process_detection`) -/

/-- An action dispatched through the recovery engine by the orchestrator:
the idle clear, the idle work prompt, or a direct recovery for a problematic
state. -/
inductive Dispatch where
  | clear
  | prompt
  | recovery (s : ClaudeState)
deriving DecidableEq, Repr

/-- Orchestrator configuration (daemon fields and the recovery engine's
`cooldown_period`, read by the prompt gate). -/
structure DecisionConfig where
  decision_min_interval : ℚ := 5
  min_recovery_interval : ℚ := 2
  consec_idle_required : Nat := 3
  cooldown_period : ℚ := 10
  clear_completion_fallback : ℚ := 30
deriving DecidableEq, Repr

/-- The orchestrator-owned decision/bootstrap state (daemon fields). -/
structure DaemonState where
  last_detected_state : ClaudeState := .UNKNOWN
  last_decision_ts : Option ℚ := none
  consec_idle : Nat := 0
  consec_active : Nat := 0
  idle_period_cleared : Bool := false
  pending_bootstrap : Bool := false
  bootstrap_cleared : Bool := false
  last_recovery_by_state : ClaudeState → ℚ := fun _ => 0
  last_idle_clear_at : Option ℚ := none
  last_idle_prompt_at : Option ℚ := none
  clear_completed_at : Option ℚ := none

/-- Python truthiness of an optional float: `None` and `0.0` are falsy. -/
def otruthy : Option ℚ → Bool
  | none => false
  | some t => t ≠ 0

/-- The value of an optional timestamp (callers only read it under
`otruthy`). -/
def oval (o : Option ℚ) : ℚ := o.getD 0

/-- The `recovery_states` set of `process_detection`. -/
def recovery_states : List ClaudeState := [.CONTEXT_PRESSURE, .INPUT_WAITING, .ERROR]

/-- The final bookkeeping of `process_detection`: record the decided state
and the decision timestamp. -/
def record_decision (d : DaemonState) (st : ClaudeState) (now : ℚ) : DaemonState :=
  { d with last_detected_state := st, last_decision_ts := some now }

/-- The `decision_engine.process_detection(daemon, detection)`.

The recovery engine collaborator is abstracted by `engine_accepts`: the
truthiness of the `execute_recovery(...)` return value for this call (the
engine returns an execution, or `None` when disabled / already executing /
no strategy applies).  All `time.time()` reads during the call are the
single instant `now`.  Returns the updated daemon state and the dispatched
action, if any. -/
def process_detection (cfg : DecisionConfig) (d : DaemonState) (st : ClaudeState)
    (now : ℚ) (engine_accepts : Bool) : DaemonState × Option Dispatch :=
  -- Global decision throttling when state unchanged
  if d.last_detected_state = st ∧ 0 < cfg.decision_min_interval ∧ otruthy d.last_decision_ts
      ∧ now - oval d.last_decision_ts < cfg.decision_min_interval then
    (d, none)
  else
    -- Update consecutive counters and idle gating
    let d1 :=
      if st = .IDLE then
        { d with consec_idle := d.consec_idle + 1, consec_active := 0 }
      else if st = .ACTIVE then
        { d with consec_active := d.consec_active + 1, consec_idle := 0,
                 idle_period_cleared := false }
      else
        { d with consec_idle := 0, consec_active := 0, idle_period_cleared := false }
    -- Per-state recovery throttling (returns without recording the decision)
    if now - d1.last_recovery_by_state st < cfg.min_recovery_interval then
      (d1, none)
    else if st = .IDLE then
      if d1.consec_idle < max 1 cfg.consec_idle_required then
        (record_decision d1 st now, none)
      else if (¬d1.idle_period_cleared ∨ d1.pending_bootstrap) ∧ ¬d1.bootstrap_cleared then
        -- Phase 1: send /clear once per idle period (and during bootstrap)
        if engine_accepts then
          let d2 := { d1 with last_idle_clear_at := some now, idle_period_cleared := true,
                               bootstrap_cleared := if d1.pending_bootstrap then true else d1.bootstrap_cleared }
          (record_decision d2 st now, some .clear)
        else (record_decision d1 st now, none)
      else
        -- Phase 2: prompt when appropriate
        let g1 := otruthy d1.last_idle_prompt_at
          ∧ now - oval d1.last_idle_prompt_at < cfg.cooldown_period
        let g2 := otruthy d1.last_idle_clear_at ∧ now - oval d1.last_idle_clear_at < 1
        let g3 := otruthy d1.last_idle_clear_at
          ∧ (¬otruthy d1.clear_completed_at
              ∨ oval d1.clear_completed_at < oval d1.last_idle_clear_at)
          ∧ now - oval d1.last_idle_clear_at < cfg.clear_completion_fallback
        let g4 := d1.pending_bootstrap ∧ ¬d1.bootstrap_cleared
        if (¬g1 ∧ ¬g2 ∧ ¬g3 ∧ ¬g4) ∧ engine_accepts then
          let d2 := { d1 with last_idle_prompt_at := some now,
                               pending_bootstrap := false,
                               bootstrap_cleared := if d1.pending_bootstrap then false else d1.bootstrap_cleared }
          (record_decision d2 st now, some .prompt)
        else (record_decision d1 st now, none)
    else if st ∈ recovery_states then
      if engine_accepts then
        let d2 := { d1 with last_recovery_by_state :=
                      fun s => if s = st then now else d1.last_recovery_by_state s }
        (record_decision d2 st now, some (.recovery st))
      else (record_decision d1 st now, none)
    else
      (record_decision d1 st now, none)

/-- Run the orchestrator over a sequence of `(state, time, engine result)`
detections, collecting the dispatched actions in order. -/
def run_detections (cfg : DecisionConfig) (d : DaemonState) :
    List (ClaudeState × ℚ × Bool) → DaemonState × List Dispatch
  | [] => (d, [])
  | (st, t, ea) :: rest =>
    let r := process_detection cfg d st t ea
    let rr := run_detections cfg r.1 rest
    (rr.1, r.2.toList ++ rr.2)

/-! ## Recovery engine (`recovery_engine.py`)

The command execution itself (TCP sends, retry/backoff, the worker thread)
is asynchronous side effect and is not modelled; the model covers
`execute_recovery` up to the point where an execution is created and the
engine is marked busy, which is where every claim about the engine lives. -/

/-- The `RecoveryActionType`. -/
inductive RecoveryActionType where
  | COMPACT
  | RESUME_INPUT
  | PROVIDE_INPUT
  | CLEAR_ERROR
  | RESTART_SESSION
  | NOTIFY_USER
  | WAIT_AND_RETRY
  | FORCE_EXIT
deriving DecidableEq, Repr

/-- The `RecoveryAction` (the `data` payload dictionary is not modelled; no
claim reads it). -/
structure RecoveryAction where
  action_type : RecoveryActionType
  target_state : ClaudeState
  priority : Nat
  command : Option String := none
  timeout : ℚ := 30
  max_retries : Nat := 3
  requires_confirmation : Bool := false
  description : String := ""
deriving DecidableEq, Repr

/-- A dynamically-typed context value (`Dict[str, Any]` entries that the
engine's condition and gating code inspects). -/
inductive CVal where
  | vB (b : Bool)
  | vQ (q : ℚ)
  | vS (s : String)
  | vL (l : List String)
deriving DecidableEq, Repr

/-- A recovery context dictionary; lookup takes the first binding, so
prepending models `dict.update` overriding. -/
abbrev RecoveryContext := List (String × CVal)

/-- Dictionary lookup. -/
def ctx_get (ctx : RecoveryContext) (k : String) : Option CVal :=
  (List.find? (fun p => p.1 = k) ctx).map (·.2)

/-- Python truthiness of a `context.get(key)` result. -/
def cval_truthy : Option CVal → Bool
  | some (.vB b) => b
  | some (.vQ q) => q ≠ 0
  | some (.vS s) => s ≠ ""
  | some (.vL l) => l ≠ []
  | none => false

/-- One entry of a strategy's `conditions` dictionary: an expected value, or
(when the expected value is a list/tuple) a membership check. -/
inductive Cond where
  | eqv (key : String) (v : CVal)
  | mem (key : String) (vs : List CVal)
deriving DecidableEq, Repr

/-- One conditions-entry check from `RecoveryStrategy.matches_context`:
a missing key fails; otherwise equality or membership must hold. -/
def cond_holds (ctx : RecoveryContext) : Cond → Bool
  | .eqv k v =>
    match ctx_get ctx k with
    | some w => w = v
    | none => false
  | .mem k vs =>
    match ctx_get ctx k with
    | some w => w ∈ vs
    | none => false

/-- The `RecoveryStrategy` (actions stored sorted by descending priority, as the
constructor sorts them). -/
structure RecoveryStrategy where
  name : String
  target_states : List ClaudeState
  actions : List RecoveryAction
  conditions : List Cond := []
deriving DecidableEq, Repr

/-- The `RecoveryStrategy.matches_context(state, context)`. -/
def matches_context (s : RecoveryStrategy) (state : ClaudeState)
    (ctx : RecoveryContext) : Bool :=
  state ∈ s.target_states ∧ s.conditions.all (cond_holds ctx)

/-- Stable insertion placing `a` before the first action of priority not
above `a`'s. -/
def insert_desc (a : RecoveryAction) : List RecoveryAction → List RecoveryAction
  | [] => [a]
  | b :: bs => if b.priority ≤ a.priority then a :: b :: bs else b :: insert_desc a bs

/-- The `sorted(actions, key=lambda x: x.priority, reverse=True)`: stable sort
by descending priority. -/
def sort_desc (l : List RecoveryAction) : List RecoveryAction :=
  l.foldr insert_desc []

/-- The `RecoveryStrategy` constructor (sorts the action list). -/
def mk_strategy (name : String) (targets : List ClaudeState)
    (actions : List RecoveryAction) (conds : List Cond) : RecoveryStrategy :=
  { name := name, target_states := targets, actions := sort_desc actions
  , conditions := conds }

/-- The `_init_default_strategies()`: the six built-in strategies, in
registration order. -/
def default_strategies : List RecoveryStrategy :=
  [ mk_strategy "context_pressure_recovery" [.CONTEXT_PRESSURE]
      [ { action_type := .COMPACT, target_state := .IDLE, priority := 8
        , command := some "/compact", timeout := 15
        , description := "Execute /compact to reduce context usage" }
      , { action_type := .NOTIFY_USER, target_state := .CONTEXT_PRESSURE, priority := 5
        , description := "Notify user about context pressure and compaction" } ] []
  , mk_strategy "input_waiting_recovery" [.INPUT_WAITING]
      [ { action_type := .PROVIDE_INPUT, target_state := .INPUT_WAITING, priority := 7
        , command := some "y", timeout := 5
        , description := "Provide default \x27yes\x27 response to prompts" }
      , { action_type := .RESUME_INPUT, target_state := .INPUT_WAITING, priority := 6
        , command := some "\n", timeout := 5
        , description := "Send Enter key to resume input" }
      , { action_type := .NOTIFY_USER, target_state := .INPUT_WAITING, priority := 4
        , description := "Notify user about input requirement" } ] []
  , mk_strategy "error_recovery" [.ERROR]
      [ { action_type := .CLEAR_ERROR, target_state := .IDLE, priority := 6
        , command := some "exit", timeout := 10, description := "Exit error state" }
      , { action_type := .RESTART_SESSION, target_state := .IDLE, priority := 4
        , requires_confirmation := true, timeout := 20
        , description := "Restart Claude session" }
      , { action_type := .NOTIFY_USER, target_state := .ERROR, priority := 8
        , description := "Notify user about error state" } ] []
  , mk_strategy "idle_maintenance" [.IDLE]
      [ { action_type := .NOTIFY_USER, target_state := .IDLE, priority := 2
        , description := "Notify about extended idle period" } ]
      [ .eqv "idle_duration_minutes" (.vQ 30) ]
  , mk_strategy "idle_prompt" [.IDLE]
      [ { action_type := .PROVIDE_INPUT, target_state := .IDLE, priority := 9
        , timeout := 10, description := "Send idle work prompt to Claude Code" } ]
      [ .eqv "should_send_idle_prompt" (.vB true) ]
  , mk_strategy "idle_clear" [.IDLE]
      [ { action_type := .CLEAR_ERROR, target_state := .IDLE, priority := 10
        , command := some "/clear", timeout := 10
        , description := "Send /clear to reduce token usage" } ]
      [ .eqv "should_send_idle_clear" (.vB true) ] ]

/-- Engine configuration keys read by the modelled path. -/
structure EngineConfig where
  cooldown_period : ℚ := 10
  require_confirmation_for_destructive_actions : Bool := true
  execution_history_limit : Nat := 100
deriving DecidableEq, Repr

/-- The `RecoveryExecution`, restricted to the fields the modelled guards read
(result/attempt bookkeeping belongs to the unmodelled worker thread). -/
structure RecoveryExecution where
  action : RecoveryAction
  start_time : ℚ
  end_time : Option ℚ := none
deriving DecidableEq, Repr

/-- The engine's state: enabled/executing flags, the in-flight execution,
the bounded history, and the strategy registry. -/
structure EngineState where
  cfg : EngineConfig := {}
  enabled : Bool := true
  executing : Bool := false
  current_execution : Option RecoveryExecution := none
  execution_history : List RecoveryExecution := []
  strategies : List RecoveryStrategy := default_strategies
deriving DecidableEq, Repr

/-- The `_can_confirm_action`: destructive actions can only be confirmed when
explicit confirmation is configured off. -/
def can_confirm_action (e : EngineState) : Bool :=
  ¬e.cfg.require_confirmation_for_destructive_actions

/-- The yes/no indicator tokens of `_select_best_action`. -/
def yesno_indicators : List String :=
  ["[y/n]", "[yes/no]", "yes/no", "do you want to", "would you like to", "continue?"]

/-- The `_find_best_strategy(state, context)`: the first registered strategy
matching the state and conditions. -/
def find_best_strategy (e : EngineState) (state : ClaudeState)
    (ctx : RecoveryContext) : Option RecoveryStrategy :=
  e.strategies.find? (fun s => matches_context s state ctx)

/-- The `_select_best_action(strategy, context)`: the first (priority-ordered)
action that is not gated out: confirmation-requiring actions need
confirmation available, and `PROVIDE_INPUT` needs either an explicit idle
prompt request or yes/no indicators in the joined evidence text. -/
def select_best_action (e : EngineState) (strat : RecoveryStrategy)
    (ctx : RecoveryContext) : Option RecoveryAction :=
  strat.actions.find? (fun a =>
    (¬(a.requires_confirmation ∧ ¬can_confirm_action e)) ∧
    (a.action_type ≠ .PROVIDE_INPUT
      ∨ cval_truthy (ctx_get ctx "should_send_idle_prompt")
      ∨ (let ev := match ctx_get ctx "detection_evidence" with
                   | some (.vL l) => String.intercalate " " l
                   | _ => ""
         yesno_indicators.any (fun tok => has_tok ev tok))))

/-- The `_is_in_cooldown(state)`: look backwards for the most recent execution
targeting `state`; in cooldown iff it ended less than `cooldown_period`
ago. -/
def is_in_cooldown (e : EngineState) (state : ClaudeState) (now : ℚ) : Bool :=
  match e.execution_history.reverse.find? (fun ex => ex.action.target_state = state) with
  | some ex =>
    match ex.end_time with
    | some t => now - t < e.cfg.cooldown_period
    | none => false
  | none => false

/-- The `execute_recovery(detection, context)` up to the dispatch decision:
returns the created execution (if any) and the updated engine state.  The
spawned worker thread that later completes the execution is a separate
asynchronous transition, modelled by `complete_execution`. -/
def execute_recovery (e : EngineState) (det : StateDetection) (ctx : RecoveryContext)
    (now : ℚ) : Option RecoveryExecution × EngineState :=
  if ¬e.enabled then (none, e)
  else if e.executing then (none, e)
  else
    let rctx : RecoveryContext :=
      [ ("detection_confidence", CVal.vQ det.confidence)
      , ("detection_timestamp", CVal.vQ det.timestamp)
      , ("detection_evidence", CVal.vL det.evidence) ] ++ ctx
    match find_best_strategy e det.state rctx with
    | none => (none, e)
    | some strat =>
      match select_best_action e strat rctx with
      | none => (none, e)
      | some action =>
        let bypass := cval_truthy (ctx_get rctx "should_send_idle_prompt")
          ∨ action.action_type = .PROVIDE_INPUT
        if ¬bypass ∧ is_in_cooldown e det.state now then (none, e)
        else
          let ex : RecoveryExecution := { action := action, start_time := now }
          (some ex, { e with executing := true, current_execution := some ex })

/-- The worker-thread completion transition (`_execute_action_worker`'s
`finally` block): clear the in-flight flags and append to the bounded
history. -/
def complete_execution (e : EngineState) (ex : RecoveryExecution) (end_time : ℚ) :
    EngineState :=
  let done := { ex with end_time := some end_time }
  let h := e.execution_history ++ [done]
  let h2 := if e.cfg.execution_history_limit < h.length then
    h.drop (h.length - e.cfg.execution_history_limit) else h
  { e with executing := false, current_execution := none, execution_history := h2 }

/-! # Claims -/

/-- C8: Single in-flight execution: a call to `execute_recovery` made while
the engine is disabled or already executing an action returns none,
dispatches no action, and leaves the engine state (including the execution
history) unchanged. -/
theorem C8_single_inflight (e : EngineState) (det : StateDetection)
    (ctx : RecoveryContext) (now : ℚ)
    (h : e.enabled = false ∨ e.executing = true) :
    execute_recovery e det ctx now = (none, e) := by
  unfold execute_recovery
  rcases h with h | h <;> simp [h]

/-- Witness for C8: a concrete busy engine (and a concrete disabled engine)
on which `execute_recovery` is a no-op. -/
theorem C8_single_inflight_witness :
    execute_recovery { executing := true } ⟨.ERROR, 9/10, [], 0, []⟩ [] 100
        = (none, { executing := true })
    ∧ execute_recovery { enabled := false } ⟨.ERROR, 9/10, [], 0, []⟩ [] 100
        = (none, { enabled := false }) :=
  ⟨C8_single_inflight _ _ _ _ (Or.inr rfl), C8_single_inflight _ _ _ _ (Or.inl rfl)⟩

theorem rstrip_append_marker (s : String) :
    rstrip_newlines (s ++ truncation_marker) = s ++ truncation_marker := by
  unfold rstrip_newlines truncation_marker
  have hdata : (s ++ "... [truncated]").data = s.data ++ "... [truncated]".data := rfl
  rw [hdata, List.reverse_append]
  have hrev : "... [truncated]".data.reverse
      = ']' :: "... [truncated".data.reverse := by decide
  rw [hrev]
  have : List.dropWhile (fun c => c == '\n' || c == '\r')
      ((']' :: "... [truncated".data.reverse) ++ s.data.reverse)
      = (']' :: "... [truncated".data.reverse) ++ s.data.reverse := by
    rw [List.cons_append, List.dropWhile_cons_of_neg (by decide)]
  rw [this, List.reverse_append, List.reverse_reverse, List.reverse_cons,
    List.reverse_reverse]
  have hm : "... [truncated".data ++ [']'] = "... [truncated]".data := by decide
  rw [hm]
  rfl

theorem rstrip_len_le (s : String) : (rstrip_newlines s).length ≤ s.length := by
  unfold rstrip_newlines
  show (((s.data.reverse.dropWhile _)).reverse).length ≤ s.data.length
  rw [List.length_reverse]
  calc (s.data.reverse.dropWhile (fun c => c == '\n' || c == '\r')).length
      ≤ s.data.reverse.length := dropWhile_len_le _ _
    _ = s.data.length := List.length_reverse _

/-- C9: Line-length cap: every completed line processed out of the buffer is
stored via `store_line`; a raw line longer than `max_line_length` is stored
as its first `max_line_length` characters followed by the truncation marker;
and every stored line's content is bounded by `max_line_length` plus the
15-character marker, so no line of unbounded length is buffered or emitted. -/
theorem C9_line_cap (cfg : ParserConfig) :
    (∀ ctx start fp now buffer,
      (process_buffer cfg ctx start fp now buffer).2.1
        = (split_complete_lines buffer).1.enum.map
            (fun p => store_line cfg (start + 1 + p.1) fp now p.2))
    ∧ (∀ n fp now raw, cfg.max_line_length < raw.length →
        (store_line cfg n fp now raw).content
          = str_take raw cfg.max_line_length ++ truncation_marker)
    ∧ (∀ n fp now raw,
        (store_line cfg n fp now raw).content.length ≤ cfg.max_line_length + 15) := by
  refine ⟨fun ctx start fp now buffer => rfl, fun n fp now raw h => ?_, fun n fp now raw => ?_⟩
  · show rstrip_newlines (cap_line cfg raw) = _
    rw [cap_line, if_pos h, rstrip_append_marker]
  · show (rstrip_newlines (cap_line cfg raw)).length ≤ _
    unfold cap_line
    split
    · rw [rstrip_append_marker]
      have h1 : (str_take raw cfg.max_line_length ++ truncation_marker).length
          = (str_take raw cfg.max_line_length).length + truncation_marker.length :=
        String.length_append _ _
      have h15 : truncation_marker.length = 15 := by decide
      have h2 : (str_take raw cfg.max_line_length).length ≤ cfg.max_line_length := by
        show (raw.data.take cfg.max_line_length).length ≤ cfg.max_line_length
        rw [List.length_take]
        omega
      omega
    · have h1 := rstrip_len_le raw
      omega

/-- Witness for C9: a 6-character line under a 3-character cap is stored as
its first 3 characters plus the marker, within the length bound. -/
theorem C9_line_cap_witness :
    ((3 : Nat) < ("abcdef" : String).length
      ∧ (store_line { max_line_length := 3 } 1 "f" 0 "abcdef").content
          = str_take "abcdef" 3 ++ truncation_marker)
    ∧ (store_line { max_line_length := 3 } 1 "f" 0 "abcdef").content.length ≤ 3 + 15 :=
  ⟨⟨by decide, (C9_line_cap { max_line_length := 3 }).2.1 1 "f" 0 "abcdef" (by decide)⟩,
    (C9_line_cap { max_line_length := 3 }).2.2 1 "f" 0 "abcdef"⟩

/-- C10: Empty-context behavior: `detect_state` on a context with no lines
returns an UNKNOWN detection with confidence 0 and leaves the externally
visible current state and the transition history unchanged, whatever the
current state was (given a positive configured minimum confidence, as in
every shipped configuration). -/
theorem C10_empty_context_frame (cfg : DetectorConfig) (d : DetectorState)
    (ctx : LogContext) (now : ℚ)
    (hempty : ctx.lines = [])
    (hmc : 0 < cfg.min_confidence) :
    (detect_state cfg d ctx now).1.state = .UNKNOWN
    ∧ (detect_state cfg d ctx now).1.confidence = 0
    ∧ (detect_state cfg d ctx now).2.current_state = d.current_state
    ∧ (detect_state cfg d ctx now).2.state_history = d.state_history := by
  have hrecent : ctx.get_recent_lines 20 = [] := by
    simp [LogContext.get_recent_lines, hempty]
  have hdet : compute_detection cfg d.current_state ctx now
      = { state := .UNKNOWN, confidence := 0, evidence := ["No log lines available"]
        , timestamp := now, triggering_lines := [] } := by
    unfold compute_detection
    rw [hrecent]
    rfl
  have hsc : should_change_state cfg d.current_state d.last_state_change
      { state := ClaudeState.UNKNOWN, confidence := 0
      , evidence := ["No log lines available"], timestamp := now
      , triggering_lines := [] } now = false := by
    unfold should_change_state
    by_cases hcu : d.current_state = ClaudeState.UNKNOWN
    · simp [hcu, not_le.mpr hmc]
    · simp [hcu, hmc]
  simp [detect_state, hdet, hsc]

theorem score_state_nonneg (n : String) (c r : String) (lines : List LogLine)
    (pcfg : StatePatternCfg) (now : ℚ) (cfg : DetectorConfig) :
    0 ≤ (score_state n c r lines pcfg now cfg).1 := by
  unfold score_state
  exact le_max_right _ _

theorem apply_timeout_nonneg (s : PerState ℚ) (lines : List LogLine) (now : ℚ)
    (cfg : DetectorConfig) (cur : ClaudeState)
    (h : 0 ≤ s.idle ∧ 0 ≤ s.input_waiting ∧ 0 ≤ s.context_pressure ∧ 0 ≤ s.error
      ∧ 0 ≤ s.active ∧ 0 ≤ s.completed) :
    0 ≤ (apply_timeout_scoring s lines now cfg cur).idle
    ∧ 0 ≤ (apply_timeout_scoring s lines now cfg cur).input_waiting
    ∧ 0 ≤ (apply_timeout_scoring s lines now cfg cur).context_pressure
    ∧ 0 ≤ (apply_timeout_scoring s lines now cfg cur).error
    ∧ 0 ≤ (apply_timeout_scoring s lines now cfg cur).active
    ∧ 0 ≤ (apply_timeout_scoring s lines now cfg cur).completed := by
  obtain ⟨h1, h2, h3, h4, h5, h6⟩ := h
  unfold apply_timeout_scoring
  cases lines.getLast? with
  | none => exact ⟨h1, h2, h3, h4, h5, h6⟩
  | some last =>
    dsimp only
    split_ifs <;> refine ⟨?_, ?_, ?_, ?_, ?_, ?_⟩ <;> dsimp only <;> linarith

theorem best_of_snd_mem (s : PerState ℚ) :
    (best_of s).2 = s.idle ∨ (best_of s).2 = s.input_waiting
    ∨ (best_of s).2 = s.context_pressure ∨ (best_of s).2 = s.error
    ∨ (best_of s).2 = s.active ∨ (best_of s).2 = s.completed := by
  simp only [best_of, PerState.toList, List.foldl]
  split_ifs <;> simp

theorem best_final_nonneg (cfg : DetectorConfig) (current : ClaudeState)
    (lines : List LogLine) (now : ℚ) :
    0 ≤ (best_of (final_scores cfg current lines now)).2 := by
  have h0 : 0 ≤ ((raw_scores lines now cfg).map (·.1)).idle
      ∧ 0 ≤ ((raw_scores lines now cfg).map (·.1)).input_waiting
      ∧ 0 ≤ ((raw_scores lines now cfg).map (·.1)).context_pressure
      ∧ 0 ≤ ((raw_scores lines now cfg).map (·.1)).error
      ∧ 0 ≤ ((raw_scores lines now cfg).map (·.1)).active
      ∧ 0 ≤ ((raw_scores lines now cfg).map (·.1)).completed := by
    simp only [raw_scores, PerState.map]
    exact ⟨score_state_nonneg _ _ _ _ _ _ _, score_state_nonneg _ _ _ _ _ _ _,
      score_state_nonneg _ _ _ _ _ _ _, score_state_nonneg _ _ _ _ _ _ _,
      score_state_nonneg _ _ _ _ _ _ _, score_state_nonneg _ _ _ _ _ _ _⟩
  have hn := apply_timeout_nonneg ((raw_scores lines now cfg).map (·.1)) lines now cfg current h0
  have hmem := best_of_snd_mem (final_scores cfg current lines now)
  unfold final_scores at hmem ⊢
  obtain ⟨n1, n2, n3, n4, n5, n6⟩ := hn
  rcases hmem with h | h | h | h | h | h <;> rw [h] <;> assumption

theorem analyze_conf_bounds (cfg : DetectorConfig) (current : ClaudeState)
    (lines : List LogLine) (now : ℚ) :
    0 ≤ (analyze_lines cfg current lines now).confidence
    ∧ (analyze_lines cfg current lines now).confidence ≤ 1 := by
  have hb : 0 ≤ (best_of (final_scores cfg current lines now)).2 :=
    best_final_nonneg cfg current lines now
  unfold analyze_lines
  simp only [final_scores] at hb
  refine ⟨?_, min_le_right _ _⟩
  apply le_min _ (by norm_num)
  split_ifs with hlow hcur
  · exact le_trans (by norm_num) (le_max_right _ _)
  · exact hb
  · exact hb

/-- C3: Confidence bounds: every `StateDetection` produced by `detect_state`
has confidence in `[0, 1]`, and constructing a `StateDetection` with a
confidence outside `[0, 1]` fails at construction
(`StateDetection.__post_init__` raises). -/
theorem C3_confidence_bounds :
    (∀ (cfg : DetectorConfig) (d : DetectorState) (ctx : LogContext) (now : ℚ),
      0 ≤ (detect_state cfg d ctx now).1.confidence
      ∧ (detect_state cfg d ctx now).1.confidence ≤ 1)
    ∧ (∀ (st : ClaudeState) (c : ℚ) (e : List String) (t : ℚ) (tr : List LogLine),
      (∃ det, mk_state_detection st c e t tr = .ok det) ↔ (0 ≤ c ∧ c ≤ 1)) := by
  constructor
  · intro cfg d ctx now
    show 0 ≤ (compute_detection cfg d.current_state ctx now).confidence
      ∧ (compute_detection cfg d.current_state ctx now).confidence ≤ 1
    unfold compute_detection
    dsimp only
    split
    · exact ⟨le_refl 0, by norm_num⟩
    · exact analyze_conf_bounds cfg d.current_state _ now
  · intro st c e t tr
    constructor
    · rintro ⟨det, hdet⟩
      by_cases hc : 0 ≤ c ∧ c ≤ 1
      · exact hc
      · simp [mk_state_detection, hc] at hdet
    · intro hc
      refine ⟨⟨st, c, e, t, tr⟩, ?_⟩
      simp [mk_state_detection, hc]

/-- The state-priority ordering exactly as the specification words it:
CONTEXT_PRESSURE > INPUT_WAITING > ERROR > {IDLE, ACTIVE, COMPLETED} >
UNKNOWN (spec-side definition, for comparison with the code's
`priority_map`). -/
def spec_priority : ClaudeState → Nat
  | .CONTEXT_PRESSURE => 4
  | .INPUT_WAITING => 3
  | .ERROR => 2
  | .IDLE => 1
  | .ACTIVE => 1
  | .COMPLETED => 1
  | .UNKNOWN => 0

/-- The hysteresis acceptance rule as the specification's ordered rules
state it (spec-side definition): (1) accept if currently UNKNOWN with
confidence at or above the minimum; (2) otherwise reject below-minimum
confidence; (3) reject a candidate equal to the current state; (4) reject
inside the debounce window; (5) accept a strictly-higher-priority candidate
iff confidence ≥ 0.5, an equal-priority one iff ≥ 0.7, a lower-priority one
iff ≥ 0.8. -/
def spec_should_accept (cfg : DetectorConfig) (current : ClaudeState)
    (last_change now : ℚ) (candidate : ClaudeState) (conf : ℚ) : Bool :=
  if current = .UNKNOWN ∧ cfg.min_confidence ≤ conf then true
  else if conf < cfg.min_confidence then false
  else if candidate = current then false
  else if now - last_change < cfg.debounce_time then false
  else if spec_priority current < spec_priority candidate then (1/2 : ℚ) ≤ conf
  else if spec_priority candidate = spec_priority current then (7/10 : ℚ) ≤ conf
  else (4/5 : ℚ) ≤ conf

/-- C4: Hysteresis acceptance: `_should_change_state` decides exactly
according to the specification's ordered rules with the stated priority
ordering and thresholds; in particular, from current state IDLE, a single
ACTIVE detection with confidence below 0.7 never changes the state. -/
theorem C4_hysteresis :
    (∀ (cfg : DetectorConfig) (current : ClaudeState) (lc0 : ℚ)
        (det : StateDetection) (now : ℚ),
      should_change_state cfg current lc0 det now
        = spec_should_accept cfg current lc0 now det.state det.confidence)
    ∧ (∀ (cfg : DetectorConfig) (lc0 : ℚ) (det : StateDetection) (now : ℚ),
      det.state = .ACTIVE → det.confidence < 7/10 →
      should_change_state cfg .IDLE lc0 det now = false) := by
  have hpm : ∀ st, priority_map st = spec_priority st := by
    intro st; cases st <;> rfl
  constructor
  · intro cfg current lc0 det now
    unfold should_change_state spec_should_accept
    by_cases h : current = .UNKNOWN
    · by_cases hc : cfg.min_confidence ≤ det.confidence
      · simp [h, hc]
      · have hc2 := not_le.mp hc
        simp [h, hc, hc2]
    · simp only [h, if_false, if_neg h, hpm]
      simp [h]
  · intro cfg lc0 det now hst hconf
    unfold should_change_state
    rw [if_neg (by simp : ¬(ClaudeState.IDLE = ClaudeState.UNKNOWN))]
    split_ifs with h1 h2 h3 <;> try rfl
    simp only [hst, priority_map]
    norm_num
    exact hconf

/-- Witness for C4: the particular hysteresis instance at a concrete
detection (current IDLE, candidate ACTIVE, confidence 0.5). -/
theorem C4_hysteresis_witness :
    (⟨.ACTIVE, 1/2, [], 0, []⟩ : StateDetection).state = .ACTIVE
    ∧ (⟨.ACTIVE, 1/2, [], 0, []⟩ : StateDetection).confidence < 7/10
    ∧ should_change_state {} .IDLE 0 ⟨.ACTIVE, 1/2, [], 0, []⟩ 10 = false :=
  ⟨rfl, by norm_num,
    C4_hysteresis.2 {} 0 ⟨.ACTIVE, 1/2, [], 0, []⟩ 10 rfl (by norm_num)⟩

/-- C5: Low-confidence retention: when the best category score of a
classification over a non-empty window falls below the configured minimum
confidence (a threshold at most 1, as any confidence threshold is), the
returned detection retains the previous externally-visible state at
confidence `max (best score) 0.3` if that state is not UNKNOWN, and is
UNKNOWN otherwise. -/
theorem C5_low_confidence_retention (cfg : DetectorConfig) (d : DetectorState)
    (ctx : LogContext) (now : ℚ)
    (hne : ctx.get_recent_lines 20 ≠ [])
    (hm1 : cfg.min_confidence ≤ 1)
    (hlow : (best_of (final_scores cfg d.current_state (ctx.get_recent_lines 20) now)).2
        < cfg.min_confidence) :
    (d.current_state ≠ .UNKNOWN →
      (detect_state cfg d ctx now).1.state = d.current_state
      ∧ (detect_state cfg d ctx now).1.confidence
          = max (best_of (final_scores cfg d.current_state (ctx.get_recent_lines 20) now)).2
              (3/10))
    ∧ (d.current_state = .UNKNOWN → (detect_state cfg d ctx now).1.state = .UNKNOWN) := by
  have hfst : (detect_state cfg d ctx now).1
      = compute_detection cfg d.current_state ctx now := rfl
  have hie : (ctx.get_recent_lines 20).isEmpty = false := by
    cases hrec : ctx.get_recent_lines 20 with
    | nil => exact absurd hrec hne
    | cons a as => rfl
  have hcomp : compute_detection cfg d.current_state ctx now
      = analyze_lines cfg d.current_state (ctx.get_recent_lines 20) now := by
    unfold compute_detection
    simp [hie]
  rw [hfst, hcomp]
  simp only [analyze_lines]
  simp only [final_scores] at hlow
  rw [if_pos hlow]
  constructor
  · intro hcur
    rw [if_pos hcur]
    refine ⟨rfl, ?_⟩
    show min (max _ (3/10)) 1 = _
    apply min_eq_left
    apply max_le (le_of_lt (lt_of_lt_of_le hlow hm1))
    norm_num
  · intro hcur
    rw [if_neg (by simp [hcur])]

set_option maxRecDepth 40000 in
/-- Witness for C5: a one-line context ("hello") scores 0 in every category,
which is below the default minimum confidence 0.6, and the previous state
IDLE is retained at confidence `max 0 0.3 = 0.3`. -/
theorem C5_low_confidence_retention_witness :
    ({ lines := [{ content := "hello", timestamp := 0 }] } : LogContext).get_recent_lines 20 ≠ []
    ∧ ({} : DetectorConfig).min_confidence ≤ 1
    ∧ (best_of (final_scores {} .IDLE
        (({ lines := [{ content := "hello", timestamp := 0 }] } : LogContext).get_recent_lines 20) 1)).2
        < ({} : DetectorConfig).min_confidence
    ∧ (detect_state {} { current_state := .IDLE, last_state_change := 0 }
        { lines := [{ content := "hello", timestamp := 0 }] } 1).1.state = .IDLE
    ∧ (detect_state {} { current_state := .IDLE, last_state_change := 0 }
        { lines := [{ content := "hello", timestamp := 0 }] } 1).1.confidence
        = max (best_of (final_scores {} .IDLE
            (({ lines := [{ content := "hello", timestamp := 0 }] } : LogContext).get_recent_lines 20) 1)).2
            (3/10) := by
  refine ⟨by with_unfolding_all decide, by norm_num, by with_unfolding_all decide, ?_⟩
  have h := C5_low_confidence_retention {} { current_state := .IDLE, last_state_change := 0 }
    { lines := [{ content := "hello", timestamp := 0 }] } 1
    (by with_unfolding_all decide) (by norm_num) (by with_unfolding_all decide)
  have h2 := h.1 (by simp)
  exact ⟨h2.1, h2.2⟩

def c6_line : LogLine := { content := "Continue? [y/n]", timestamp := 0 }

def c6_ctx : LogContext := { lines := [c6_line] }

def c6_cfg : DetectorConfig := {}

def c6_d0 : DetectorState := { current_state := .IDLE, last_state_change := -90 }

set_option maxRecDepth 200000 in
/-- C6 is false as stated: counterexample.  On the one-line context
"Continue? [y/n]" (last line 10 s old, current state IDLE), the first
`detect_state` call returns (INPUT_WAITING, 0.72) and accepts the
transition; the second call on the same context under the same wall clock
then decays the input-waiting score (current state is now INPUT_WAITING and
the input timeout elapsed), returning (INPUT_WAITING, 0.504) — a different
`StateDetection`. -/
theorem C6_counterexample :
    (detect_state c6_cfg (detect_state c6_cfg c6_d0 c6_ctx 10).2 c6_ctx 10).1
      ≠ (detect_state c6_cfg c6_d0 c6_ctx 10).1 := by
  with_unfolding_all decide

/-- C6 (amended): Classifier idempotence holds whenever the first call does
not change the externally visible current state: feeding the same
`LogContext` twice under a fixed wall clock then yields the same
`StateDetection`.  (In general a state-changing first call can alter the
second result through the input-waiting decay and the retention fallback,
which read the current state.) -/
theorem C6_idempotent_when_state_unchanged (cfg : DetectorConfig)
    (d : DetectorState) (ctx : LogContext) (now : ℚ)
    (h : (detect_state cfg d ctx now).2.current_state = d.current_state) :
    (detect_state cfg (detect_state cfg d ctx now).2 ctx now).1
      = (detect_state cfg d ctx now).1 := by
  show compute_detection cfg (detect_state cfg d ctx now).2.current_state ctx now
    = compute_detection cfg d.current_state ctx now
  rw [h]

/-- Witness for C6 (amended): on an empty context the first call leaves the
current state IDLE unchanged, and the repeated call returns the same
detection. -/
theorem C6_idempotent_witness :
    (detect_state {} { current_state := .IDLE } ({} : LogContext) 5).2.current_state
      = ({ current_state := .IDLE } : DetectorState).current_state
    ∧ (detect_state {} (detect_state {} { current_state := .IDLE } ({} : LogContext) 5).2
        ({} : LogContext) 5).1
      = (detect_state {} { current_state := .IDLE } ({} : LogContext) 5).1 :=
  ⟨by with_unfolding_all decide,
    C6_idempotent_when_state_unchanged {} { current_state := .IDLE } {} 5
      (by with_unfolding_all decide)⟩

/-! ## Orchestrator lemmas -/

/-- The global decision throttle of `process_detection` does not fire for
this detection. -/
abbrev not_throttled (cfg : DecisionConfig) (d : DaemonState) (st : ClaudeState)
    (now : ℚ) : Prop :=
  ¬(d.last_detected_state = st ∧ 0 < cfg.decision_min_interval ∧ otruthy d.last_decision_ts
      ∧ now - oval d.last_decision_ts < cfg.decision_min_interval)

/-- Detection timestamps spaced by at least the decision-throttle interval,
starting from a recorded last-decision timestamp. -/
def dec_chain (cfg : DecisionConfig) : Option ℚ → List ℚ → Prop
  | _, [] => True
  | last, t :: ts =>
    (match last with
     | none => True
     | some s => cfg.decision_min_interval ≤ t - s) ∧ dec_chain cfg (some t) ts

theorem chain_head_not_throttled (cfg : DecisionConfig) (d : DaemonState) (t : ℚ)
    (ts : List ℚ) (hch : dec_chain cfg d.last_decision_ts (t :: ts)) :
    not_throttled cfg d .IDLE t := by
  rintro ⟨h1, h2, h3, h4⟩
  cases hld : d.last_decision_ts with
  | none => rw [hld] at h3; exact absurd h3 (by simp [otruthy])
  | some s =>
    rw [hld] at hch h4
    have := hch.1
    simp only at this
    simp only [oval, Option.getD_some] at h4
    linarith

theorem step_idle_waiting (cfg : DecisionConfig) (d : DaemonState) (t : ℚ) (ea : Bool)
    (hthr : not_throttled cfg d .IDLE t)
    (hrec : cfg.min_recovery_interval ≤ t - d.last_recovery_by_state .IDLE)
    (hlt : d.consec_idle + 1 < max 1 cfg.consec_idle_required) :
    process_detection cfg d .IDLE t ea
      = ({ d with consec_idle := d.consec_idle + 1, consec_active := 0,
                  last_detected_state := .IDLE, last_decision_ts := some t }, none) := by
  simp only [process_detection]
  rw [if_neg hthr]
  simp only [↓reduceIte]
  rw [if_neg (not_lt.mpr hrec), if_pos hlt]
  rfl

theorem step_idle_clear (cfg : DecisionConfig) (d : DaemonState) (t : ℚ)
    (hthr : not_throttled cfg d .IDLE t)
    (hrec : cfg.min_recovery_interval ≤ t - d.last_recovery_by_state .IDLE)
    (hge : max 1 cfg.consec_idle_required ≤ d.consec_idle + 1)
    (hph : (¬d.idle_period_cleared = true ∨ d.pending_bootstrap = true)
      ∧ ¬d.bootstrap_cleared = true) :
    process_detection cfg d .IDLE t true
      = ({ d with consec_idle := d.consec_idle + 1, consec_active := 0,
                  last_idle_clear_at := some t, idle_period_cleared := true,
                  bootstrap_cleared := if d.pending_bootstrap then true else d.bootstrap_cleared,
                  last_detected_state := .IDLE, last_decision_ts := some t }, some .clear) := by
  simp only [process_detection]
  rw [if_neg hthr]
  simp only [↓reduceIte]
  rw [if_neg (not_lt.mpr hrec), if_neg (not_lt.mpr hge), if_pos hph]
  rfl

theorem idle_run_clear_aux (cfg : DecisionConfig) :
    ∀ (ts : List ℚ) (d : DaemonState),
    d.idle_period_cleared = false →
    d.pending_bootstrap = false →
    d.bootstrap_cleared = false →
    d.consec_idle + ts.length = max 1 cfg.consec_idle_required →
    dec_chain cfg d.last_decision_ts ts →
    (∀ t ∈ ts, cfg.min_recovery_interval ≤ t - d.last_recovery_by_state .IDLE) →
    ts ≠ [] →
    (run_detections cfg d (ts.map (fun t => (.IDLE, t, true)))).2 = [.clear]
    ∧ (run_detections cfg d (ts.map (fun t => (.IDLE, t, true)))).1.idle_period_cleared = true := by
  intro ts
  induction ts with
  | nil => intro d _ _ _ _ _ _ hne; exact absurd rfl hne
  | cons t ts ih =>
    intro d hc hp hb hlen hch hrec _
    have hthr := chain_head_not_throttled cfg d t ts hch
    have hrect : cfg.min_recovery_interval ≤ t - d.last_recovery_by_state .IDLE :=
      hrec t (by simp)
    cases ts with
    | nil =>
      have hge : max 1 cfg.consec_idle_required ≤ d.consec_idle + 1 := by
        simp at hlen; omega
      have hstep := step_idle_clear cfg d t hthr hrect hge
        ⟨Or.inl (by simp [hc]), by simp [hb]⟩
      simp [run_detections, hstep]
    | cons t' ts' =>
      have hlt : d.consec_idle + 1 < max 1 cfg.consec_idle_required := by
        simp at hlen
        have hmax : 1 ≤ max 1 cfg.consec_idle_required := le_max_left _ _
        omega
      have hstep := step_idle_waiting cfg d t true hthr hrect hlt
      have ih' := ih ({ d with consec_idle := d.consec_idle + 1, consec_active := 0,
                               last_detected_state := .IDLE, last_decision_ts := some t })
        (by simp [hc]) (by simp [hp]) (by simp [hb])
        (by simp at hlen ⊢; omega)
        (by exact hch.2)
        (by intro x hx; exact hrec x (by simp [hx]))
        (by simp)
      simp only [List.map, run_detections, hstep]
      simpa using ih'

theorem throttled_none (cfg : DecisionConfig) (d : DaemonState) (st : ClaudeState)
    (now : ℚ) (ea : Bool)
    (h : now - d.last_recovery_by_state st < cfg.min_recovery_interval) :
    (process_detection cfg d st now ea).2 = none := by
  simp only [process_detection]
  split_ifs <;> simp_all

theorem step_recovery_eval (cfg : DecisionConfig) (d : DaemonState) (s : ClaudeState)
    (t : ℚ) (ea : Bool)
    (hsi : ¬(s = .IDLE)) (hsa : ¬(s = .ACTIVE)) (hs : s ∈ recovery_states)
    (hthr : not_throttled cfg d s t)
    (hrec : cfg.min_recovery_interval ≤ t - d.last_recovery_by_state s) :
    process_detection cfg d s t ea
      = if ea then
          (record_decision
            { d with consec_idle := 0, consec_active := 0, idle_period_cleared := false,
                     last_recovery_by_state :=
                       fun s' => if s' = s then t else d.last_recovery_by_state s' } s t,
            some (.recovery s))
        else
          (record_decision
            { d with consec_idle := 0, consec_active := 0,
                     idle_period_cleared := false } s t, none) := by
  simp only [process_detection]
  rw [if_neg hthr, if_neg hsi, if_neg hsa]
  rw [if_neg (not_lt.mpr hrec), if_neg hsi, if_pos hs]

theorem no_clear_when_cleared (cfg : DecisionConfig) (d : DaemonState) (st : ClaudeState)
    (now : ℚ) (ea : Bool)
    (hcleared : d.idle_period_cleared = true)
    (hpend : d.pending_bootstrap = false) :
    (process_detection cfg d st now ea).2 ≠ some .clear := by
  simp only [process_detection]
  split_ifs <;> simp_all

theorem prompt_after_completion (cfg : DecisionConfig) (d : DaemonState) (now tc tcc : ℚ)
    (hthr : not_throttled cfg d .IDLE now)
    (hrec : cfg.min_recovery_interval ≤ now - d.last_recovery_by_state .IDLE)
    (hconsec : max 1 cfg.consec_idle_required ≤ d.consec_idle + 1)
    (hcleared : d.idle_period_cleared = true)
    (hpend : d.pending_bootstrap = false)
    (hclear : d.last_idle_clear_at = some tc)
    (htc : tc ≠ 0)
    (hcompl : d.clear_completed_at = some tcc)
    (htcc0 : tcc ≠ 0)
    (htcc : tc ≤ tcc)
    (hdelay : 1 ≤ now - tc)
    (hcool : d.last_idle_prompt_at = none
      ∨ ∃ tp, d.last_idle_prompt_at = some tp ∧ cfg.cooldown_period ≤ now - tp) :
    (process_detection cfg d .IDLE now true).2 = some .prompt
    ∧ (process_detection cfg d .IDLE now true).1.idle_period_cleared = true := by
  simp only [process_detection]
  rw [if_neg hthr]
  simp only [↓reduceIte, hcleared, hpend, hclear, hcompl, otruthy, oval]
  rw [if_neg (not_lt.mpr hrec)]
  rw [if_neg (not_lt.mpr hconsec)]
  rw [if_neg (by simp : ¬((¬True ∨ false = true) ∧ ¬d.bootstrap_cleared = true))]
  simp only [Option.getD_some, Option.getD_none, Bool.false_eq_true, false_and,
    not_false_eq_true, and_true, if_false, true_and, ne_eq, htc, htcc0, not_false_iff]
  rw [if_pos]
  · exact ⟨rfl, by simp [record_decision]⟩
  refine ⟨?_, ?_, ?_⟩
  · rcases hcool with h | ⟨tp, hp, hle⟩
    · simp [h]
    · simp [hp]
      intro _
      linarith
  · simp
    linarith
  · simp
    intro h
    exact absurd h (not_lt.mpr htcc)

/-- C2: Fallback bypass: an IDLE detection processed by the orchestrator
after the idle period was cleared, with clear-completion never observed,
is answered with a dispatched prompt once the elapsed time since the clear
reaches `clearCompletionFallbackSeconds` — given the prompt cooldown and the
one-second minimum post-clear delay have elapsed, no bootstrap is
pending-but-uncleared (either no bootstrap is pending, or the bootstrap
clear already completed), and the detection passes the consecutive-idle and
throttling gates (i.e., it is actually processed). -/
theorem C2_fallback_bypass (cfg : DecisionConfig) (d : DaemonState) (now tc : ℚ)
    (hthr : not_throttled cfg d .IDLE now)
    (hrec : cfg.min_recovery_interval ≤ now - d.last_recovery_by_state .IDLE)
    (hconsec : max 1 cfg.consec_idle_required ≤ d.consec_idle + 1)
    (hcleared : d.idle_period_cleared = true)
    (hpb : d.pending_bootstrap = false ∨ d.bootstrap_cleared = true)
    (hclear : d.last_idle_clear_at = some tc)
    (htc : tc ≠ 0)
    (hnocomp : d.clear_completed_at = none)
    (hfall : cfg.clear_completion_fallback ≤ now - tc)
    (hdelay : 1 ≤ now - tc)
    (hcool : d.last_idle_prompt_at = none
      ∨ ∃ tp, d.last_idle_prompt_at = some tp ∧ cfg.cooldown_period ≤ now - tp) :
    (process_detection cfg d .IDLE now true).2 = some .prompt := by
  simp only [process_detection]
  rw [if_neg hthr]
  simp only [↓reduceIte, hcleared, hclear, hnocomp, otruthy, oval]
  rw [if_neg (not_lt.mpr hrec)]
  rw [if_neg (not_lt.mpr hconsec)]
  rcases hpb with hpend | hboot
  · simp only [hpend]
    rw [if_neg (by simp : ¬((¬True ∨ false = true) ∧ ¬d.bootstrap_cleared = true))]
    simp only [Option.getD_some, Option.getD_none, Bool.false_eq_true, false_and,
      not_false_eq_true, and_true, if_false, true_and, ne_eq, htc, not_false_iff]
    rw [if_pos]
    refine ⟨?_, ?_, ?_⟩
    · rcases hcool with h | ⟨tp, hp, hle⟩
      · simp [h]
      · simp [hp]
        intro _
        linarith
    · simp
      linarith
    · simp
      linarith
  · simp only [hboot]
    rw [if_neg (by simp : ¬((¬True ∨ d.pending_bootstrap = true) ∧ ¬True))]
    simp only [Option.getD_some, Option.getD_none, Bool.false_eq_true, false_and,
      not_false_eq_true, and_true, if_false, true_and, ne_eq, htc, not_false_iff,
      not_true_eq_false, and_false]
    rw [if_pos]
    refine ⟨?_, ?_, ?_⟩
    · rcases hcool with h | ⟨tp, hp, hle⟩
      · simp [h]
      · simp [hp]
        intro _
        linarith
    · simp
      linarith
    · simp
      linarith

/-- Witness for C2: two concrete daemon states (cleared at t=60, completion
never observed, fallback 30 s) that dispatch a prompt at t=100 — one with no
bootstrap pending, and one on the bootstrap fallback path with the bootstrap
pending and its clear completed. -/
theorem C2_fallback_bypass_witness :
    (process_detection { consec_idle_required := 3 }
      { last_detected_state := .IDLE, last_decision_ts := some 50, consec_idle := 3,
        idle_period_cleared := true, last_idle_clear_at := some 60 }
      .IDLE 100 true).2 = some .prompt
    ∧ (process_detection { consec_idle_required := 3 }
      { last_detected_state := .IDLE, last_decision_ts := some 50, consec_idle := 3,
        idle_period_cleared := true, pending_bootstrap := true, bootstrap_cleared := true,
        last_idle_clear_at := some 60 }
      .IDLE 100 true).2 = some .prompt :=
  ⟨C2_fallback_bypass { consec_idle_required := 3 }
    { last_detected_state := .IDLE, last_decision_ts := some 50, consec_idle := 3,
      idle_period_cleared := true, last_idle_clear_at := some 60 }
    100 60
    (by with_unfolding_all decide)
    (by with_unfolding_all decide)
    (by decide) rfl (Or.inl rfl) rfl (by norm_num) rfl
    (by with_unfolding_all decide)
    (by with_unfolding_all decide)
    (Or.inl rfl),
  C2_fallback_bypass { consec_idle_required := 3 }
    { last_detected_state := .IDLE, last_decision_ts := some 50, consec_idle := 3,
      idle_period_cleared := true, pending_bootstrap := true, bootstrap_cleared := true,
      last_idle_clear_at := some 60 }
    100 60
    (by with_unfolding_all decide)
    (by with_unfolding_all decide)
    (by decide) rfl (Or.inr rfl) rfl (by norm_num) rfl
    (by with_unfolding_all decide)
    (by with_unfolding_all decide)
    (Or.inl rfl)⟩

def c1_cfg : DecisionConfig := { consec_idle_required := 1 }

def c1_d : DaemonState :=
  { last_detected_state := .ACTIVE, last_decision_ts := some 50,
    idle_period_cleared := true, last_idle_clear_at := some 99,
    clear_completed_at := some (993/10) }

/-- C1 is false as literally stated: counterexample.  The idle period was
cleared at t=99 and clear-completion was observed at t=99.3; the next IDLE
detection is processed at t=99.5 (it passes the throttles and the
consecutive-idle gate and reaches the prompt phase), yet no prompt is
dispatched, because the one-second minimum post-clear delay has not elapsed
— the claim asserts exactly one prompt is dispatched for such a
detection. -/
theorem C1_counterexample :
    (process_detection c1_cfg c1_d .IDLE (199/2) true).2 = none := by
  with_unfolding_all decide

/-- C1 (amended): Two-phase idle protocol.  (1) Over any sequence of N
consecutive IDLE detections (N = the configured consecutive-idle-required
count) processed by the orchestrator — spaced at or above the decision
throttle interval and outside the per-state recovery throttle — during an
idle period with no prior clear and no bootstrap in progress, exactly one
clear and zero prompts are dispatched.  (2) A subsequent IDLE detection
processed after clear-completion has been observed dispatches exactly one
prompt, provided the prompt cooldown and the one-second minimum post-clear
delay have elapsed.  (3) While the idle period remains cleared (and no
bootstrap is pending), no further clear is ever dispatched. -/
theorem C1_two_phase_idle :
    (∀ (cfg : DecisionConfig) (d0 : DaemonState) (ts : List ℚ),
      1 ≤ cfg.consec_idle_required →
      d0.consec_idle = 0 →
      d0.idle_period_cleared = false →
      d0.pending_bootstrap = false →
      d0.bootstrap_cleared = false →
      ts.length = cfg.consec_idle_required →
      dec_chain cfg d0.last_decision_ts ts →
      (∀ t ∈ ts, cfg.min_recovery_interval ≤ t - d0.last_recovery_by_state .IDLE) →
      (run_detections cfg d0 (ts.map (fun t => (.IDLE, t, true)))).2 = [.clear])
    ∧ (∀ (cfg : DecisionConfig) (d : DaemonState) (now tc tcc : ℚ),
      not_throttled cfg d .IDLE now →
      cfg.min_recovery_interval ≤ now - d.last_recovery_by_state .IDLE →
      max 1 cfg.consec_idle_required ≤ d.consec_idle + 1 →
      d.idle_period_cleared = true →
      d.pending_bootstrap = false →
      d.last_idle_clear_at = some tc →
      tc ≠ 0 →
      d.clear_completed_at = some tcc →
      tcc ≠ 0 →
      tc ≤ tcc →
      1 ≤ now - tc →
      (d.last_idle_prompt_at = none
        ∨ ∃ tp, d.last_idle_prompt_at = some tp ∧ cfg.cooldown_period ≤ now - tp) →
      (process_detection cfg d .IDLE now true).2 = some .prompt
      ∧ (process_detection cfg d .IDLE now true).1.idle_period_cleared = true)
    ∧ (∀ (cfg : DecisionConfig) (d : DaemonState) (st : ClaudeState) (now : ℚ) (ea : Bool),
      d.idle_period_cleared = true → d.pending_bootstrap = false →
      (process_detection cfg d st now ea).2 ≠ some .clear) := by
  refine ⟨?_, ?_, ?_⟩
  · intro cfg d0 ts hN h0 hc hp hb hlen hch hrec
    have hmax : max 1 cfg.consec_idle_required = cfg.consec_idle_required :=
      Nat.max_eq_right hN
    have hne : ts ≠ [] := by
      intro he
      rw [he] at hlen
      simp at hlen
      omega
    exact (idle_run_clear_aux cfg ts d0 hc hp hb (by omega) hch hrec hne).1
  · intro cfg d now tc tcc hthr hrec hconsec hcleared hpend hclear htc hcompl htcc0 htcc
      hdelay hcool
    exact prompt_after_completion cfg d now tc tcc hthr hrec hconsec hcleared hpend hclear
      htc hcompl htcc0 htcc hdelay hcool
  · intro cfg d st now ea hcleared hpend
    exact no_clear_when_cleared cfg d st now ea hcleared hpend

/-- Witness for C1 (amended): with N = 2, two IDLE detections at t=100 and
t=110 from a fresh state dispatch exactly the clear; and a cleared state
with completion observed at t=61 dispatches a prompt at t=100, leaving the
period cleared. -/
theorem C1_two_phase_idle_witness :
    (run_detections { consec_idle_required := 2 } {}
      ([100, 110].map (fun t => (ClaudeState.IDLE, t, true)))).2 = [.clear]
    ∧ (process_detection { consec_idle_required := 1 }
        { consec_idle := 1, idle_period_cleared := true,
          last_idle_clear_at := some 60, clear_completed_at := some 61 }
        .IDLE 100 true).2 = some .prompt :=
  ⟨C1_two_phase_idle.1 { consec_idle_required := 2 } {} [100, 110]
    (by norm_num) rfl rfl rfl rfl rfl
    (by refine ⟨trivial, by norm_num, trivial⟩)
    (by
      intro t ht
      simp only [List.mem_cons, List.not_mem_nil, or_false] at ht
      rcases ht with rfl | rfl <;> norm_num),
  (C1_two_phase_idle.2.1 { consec_idle_required := 1 }
    { consec_idle := 1, idle_period_cleared := true,
      last_idle_clear_at := some 60, clear_completed_at := some 61 }
    100 60 61
    (by with_unfolding_all decide) (by with_unfolding_all decide) (by decide)
    rfl rfl rfl (by norm_num) rfl (by norm_num) (by norm_num)
    (by with_unfolding_all decide) (Or.inl rfl)).1⟩

/-- C7: Per-state recovery cooldown: for a recovery-eligible state
(CONTEXT_PRESSURE, INPUT_WAITING, ERROR), two detections of that state
processed within the per-state minimum recovery interval produce at most one
dispatched recovery; and after a recovery fires for that state, a detection
of the state arriving before the interval elapses is skipped without
dispatch. -/
theorem C7_per_state_cooldown (cfg : DecisionConfig) (d : DaemonState) (s : ClaudeState)
    (t1 t2 : ℚ) (e1 e2 : Bool)
    (hs : s ∈ recovery_states)
    (hlt : t2 - t1 < cfg.min_recovery_interval) :
    (run_detections cfg d [(s, t1, e1), (s, t2, e2)]).2.length ≤ 1
    ∧ ((process_detection cfg d s t1 e1).2 = some (.recovery s) →
        (process_detection cfg (process_detection cfg d s t1 e1).1 s t2 e2).2 = none) := by
  have hsi : ¬(s = .IDLE) := by
    simp only [recovery_states, List.mem_cons, List.not_mem_nil, or_false] at hs
    rcases hs with rfl | rfl | rfl <;> simp
  have hsa : ¬(s = .ACTIVE) := by
    simp only [recovery_states, List.mem_cons, List.not_mem_nil, or_false] at hs
    rcases hs with rfl | rfl | rfl <;> simp
  have hsecond : (process_detection cfg d s t1 e1).2 ≠ none →
      (process_detection cfg (process_detection cfg d s t1 e1).1 s t2 e2).2 = none := by
    intro hd
    by_cases h1 : not_throttled cfg d s t1
    · by_cases h2 : cfg.min_recovery_interval ≤ t1 - d.last_recovery_by_state s
      · have heval := step_recovery_eval cfg d s t1 e1 hsi hsa hs h1 h2
        cases e1 with
        | false => rw [heval] at hd; simp at hd
        | true =>
          rw [heval]
          apply throttled_none
          simpa [record_decision] using hlt
      · have hn := throttled_none cfg d s t1 e1 (not_le.mp h2)
        exact absurd hn hd
    · have hn : (process_detection cfg d s t1 e1).2 = none := by
        simp only [process_detection]
        rw [if_pos (not_not.mp h1)]
      exact absurd hn hd
  constructor
  · by_cases hnone : (process_detection cfg d s t1 e1).2 = none
    · cases hr2 : (process_detection cfg (process_detection cfg d s t1 e1).1 s t2 e2).2 <;>
        simp [run_detections, hnone, hr2]
    · have h2n := hsecond hnone
      cases hr1 : (process_detection cfg d s t1 e1).2 <;>
        simp [run_detections, h2n, hr1]
  · intro hd
    exact hsecond (by simp [hd])

/-- Witness for C7: two CONTEXT_PRESSURE detections 1 s apart under a 2 s
per-state interval dispatch at most one recovery. -/
theorem C7_per_state_cooldown_witness :
    (run_detections {} ({} : DaemonState)
      [(ClaudeState.CONTEXT_PRESSURE, 100, true), (ClaudeState.CONTEXT_PRESSURE, 101, true)]).2.length ≤ 1 :=
  (C7_per_state_cooldown {} {} .CONTEXT_PRESSURE 100 101 true true
    (by simp [recovery_states]) (by norm_num)).1

/-- Witness for C10: on an empty context with the default configuration, a
detector currently in ACTIVE gets an UNKNOWN/0 detection and keeps its
state. -/
theorem C10_empty_context_frame_witness :
    ({} : LogContext).lines = []
    ∧ (0 : ℚ) < ({} : DetectorConfig).min_confidence
    ∧ (detect_state {} { current_state := .ACTIVE } ({} : LogContext) 5).1.state = .UNKNOWN
    ∧ (detect_state {} { current_state := .ACTIVE } ({} : LogContext) 5).2.current_state
        = ({ current_state := .ACTIVE } : DetectorState).current_state :=
  ⟨rfl, by norm_num,
    (C10_empty_context_frame {} { current_state := .ACTIVE } {} 5 rfl (by norm_num)).1,
    (C10_empty_context_frame {} { current_state := .ACTIVE } {} 5 rfl (by norm_num)).2.2.1⟩

end ClaudeMonitor
